import Mathlib

/-!
A verification development for the Dream-Canvas-Art backend gateway.

The definitions below are a shallow embedding of the program's core logic:

* `app/core/error_handlers.py`: the error classifier (`handle_service_error`,
  `handle_fal_ai_error`, `handle_openai_error`, `handle_google_ai_error`,
  `handle_storage_error`, `create_error_response`) and the upload validators
  (`validate_file_types`).
* `app/features/image_generation/image_generation_schema.py`: the model
  capability tables.
* `app/features/image_generation/image_generation_route.py`: the request
  validation sequence of the `POST /generate` route and its error boundary.
* `app/features/image_generation/image_generation.py`: the mode dispatch of
  `ImageGenerationService.generate_image`, the per-provider shape-parameter
  builders, the SeeDream endpoint choice and the NanoBanana reference-image
  loop.
* `app/utils/media_uploader.py`: `upload_bytes` (GCS vs. local fallback) and
  `resize_image_if_needed`.

Python exceptions are embedded by their stringified message; network and
filesystem effects are embedded as explicit data (an `Except` result for the
provider call, a constructor recording which storage branch ran). PIL images
are embedded by the data the source inspects: the raw bytes, the decoded
(width, height) when `Image.open` succeeds, and the bytes the resize-and-save
step would produce (`none` when it raises).
-/

/-- ASCII lowercase of one character, as Python str.lower acts on the ASCII
range (the error vocabularies are all ASCII). -/
def lowerChar (c : Char) : Char :=
  if 65 ≤ c.toNat ∧ c.toNat ≤ 90 then Char.ofNat (c.toNat + 32) else c

/-- Python str.lower over the message strings of the classifier. -/
def lowerStr (s : String) : String :=
  ⟨s.data.map lowerChar⟩

/-- Whether the first list is a prefix of the second. -/
def listIsPrefixOf : List Char → List Char → Bool
  | [], _ => true
  | _ :: _, [] => false
  | a :: as, b :: bs => a = b && listIsPrefixOf as bs

/-- Whether the first list occurs as a contiguous sublist of the second. -/
def listInfixOf (pat : List Char) (s : List Char) : Bool :=
  match s with
  | [] => listIsPrefixOf pat []
  | _ :: rest => listIsPrefixOf pat s || listInfixOf pat rest

/-- Python's substring test: `pat in msg`. -/
def containsSub (msg pat : String) : Bool :=
  listInfixOf pat.data msg.data

/-- Python's `any(pattern in msg for pattern in patterns)`. -/
def anyIn (msg : String) (patterns : List String) : Bool :=
  patterns.any (fun p => containsSub msg p)

/-- Python's `", ".join(items)`. -/
def joinComma : List String → String
  | [] => ""
  | [a] => a
  | a :: b :: rest => a ++ ", " ++ joinComma (b :: rest)

/-- Python's slice `s[:n]`. -/
def strTake (s : String) (n : Nat) : String :=
  ⟨s.data.take n⟩

/-- The normalized error value the classifier produces: the HTTPException of
`create_error_response`, with its status code, error type, human message and
detail key-value pairs. -/
structure ErrorResponse where
  status : Nat
  error : String
  message : String
  details : List (String × String)
deriving DecidableEq

/-- error_handlers.create_error_response: the standardized error value. -/
def create_error_response (status_code : Nat) (error_type : String)
    (message : String) (details : List (String × String)) : ErrorResponse :=
  ⟨status_code, error_type, message, details⟩

/-! The fal.ai classifier (error_handlers.handle_fal_ai_error): an ordered
list of pattern groups, checked top to bottom against the lowercased message,
first match wins. The groups below appear in the order of the source's `if`
chain. -/

/-- Rate limiting errors, checked first (source comment: check before auth to
catch "429" properly). -/
def fal_rate_limit_patterns : List String :=
  ["rate limit", "429", "quota exceeded", "too many requests",
   "rate exceeded", "throttled", "quota"]

/-- Authentication errors (401, API key issues). -/
def fal_auth_patterns : List String :=
  ["api key", "unauthorized", "401", "authentication failed",
   "invalid api key", "missing api key", "fal_key"]

/-- Face detection errors (422). -/
def fal_face_detection_patterns : List String :=
  ["face_detection_error", "could not detect face", "no face detected",
   "face detection failed", "face not found"]

/-- Content policy violations (safety checker). -/
def fal_content_policy_patterns : List String :=
  ["safety", "content policy", "inappropriate", "nsfw", "violation",
   "safety checker", "moderation", "blocked", "filtered", "content_policy_violation"]

/-- Image size validation: too small (422). -/
def fal_image_too_small_patterns : List String :=
  ["image_too_small", "image too small", "minimum size", "min_height", "min_width"]

/-- Image size validation: too large (422). -/
def fal_image_too_large_patterns : List String :=
  ["image_too_large", "image too large", "maximum size", "max_height", "max_width",
   "image dimensions exceed"]

/-- File format validation: image (422). -/
def fal_unsupported_image_format_patterns : List String :=
  ["unsupported_image_format", "unsupported image format", "invalid image format",
   "image format not supported"]

/-- File format validation: audio (422). -/
def fal_unsupported_audio_format_patterns : List String :=
  ["unsupported_audio_format", "unsupported audio format", "invalid audio format",
   "audio format not supported"]

/-- File format validation: video (422). -/
def fal_unsupported_video_format_patterns : List String :=
  ["unsupported_video_format", "unsupported video format", "invalid video format",
   "video format not supported"]

/-- Model or endpoint not found (404). -/
def fal_model_not_found_patterns : List String :=
  ["404", "not found", "model not found", "endpoint not found",
   "invalid model", "model does not exist"]

/-- File size errors (422). -/
def fal_file_too_large_patterns : List String :=
  ["file_too_large", "file too large", "file size", "exceeds maximum", "max_size"]

/-- Archive errors (422). -/
def fal_invalid_archive_patterns : List String :=
  ["invalid_archive", "invalid archive", "corrupted archive", "cannot read archive",
   "archive format", "unsupported archive"]

/-- Archive below minimum file count (422). -/
def fal_archive_too_few_patterns : List String :=
  ["archive_file_count_below_minimum", "too few files", "minimum files", "min_count"]

/-- Archive above maximum file count (422). -/
def fal_archive_too_many_patterns : List String :=
  ["archive_file_count_exceeds_maximum", "too many files", "maximum files", "max_count"]

/-- Audio duration too long (422). -/
def fal_audio_too_long_patterns : List String :=
  ["audio_duration_too_long", "audio duration too long", "audio too long", "max_duration"]

/-- Audio duration too short (422). -/
def fal_audio_too_short_patterns : List String :=
  ["audio_duration_too_short", "audio duration too short", "audio too short", "min_duration"]

/-- Video duration too long (422). -/
def fal_video_too_long_patterns : List String :=
  ["video_duration_too_long", "video duration too long", "video too long"]

/-- Video duration too short (422). -/
def fal_video_too_short_patterns : List String :=
  ["video_duration_too_short", "video duration too short", "video too short"]

/-- Numeric validation: greater_than (422). -/
def fal_greater_than_patterns : List String :=
  ["greater_than", "should be greater than", "must be greater than", "gt"]

/-- Numeric validation: greater_than_equal (422). -/
def fal_greater_than_equal_patterns : List String :=
  ["greater_than_equal", "should be greater than or equal",
   "must be greater than or equal", "ge"]

/-- Numeric validation: less_than (422). -/
def fal_less_than_patterns : List String :=
  ["less_than", "should be less than", "must be less than", "lt"]

/-- Numeric validation: less_than_equal (422). -/
def fal_less_than_equal_patterns : List String :=
  ["less_than_equal", "should be less than or equal",
   "must be less than or equal", "le"]

/-- Numeric validation: multiple_of (422). -/
def fal_multiple_of_patterns : List String :=
  ["multiple_of", "should be a multiple of", "must be a multiple of", "multiple"]

/-- Sequence validation: too short (422). -/
def fal_sequence_too_short_patterns : List String :=
  ["sequence_too_short", "sequence too short", "should have at least", "min_length"]

/-- Sequence validation: too long (422). -/
def fal_sequence_too_long_patterns : List String :=
  ["sequence_too_long", "sequence too long", "should have at most", "max_length"]

/-- Choice validation (422). -/
def fal_one_of_patterns : List String :=
  ["one_of", "should be", "invalid choice", "not in allowed values", "expected"]

/-- Generation timeout (504). -/
def fal_generation_timeout_patterns : List String :=
  ["generation_timeout", "generation timeout", "request timeout", "operation timed out"]

/-- Downstream service error (400). -/
def fal_downstream_error_patterns : List String :=
  ["downstream_service_error", "downstream service error", "external service error"]

/-- Downstream service unavailable (500). -/
def fal_downstream_unavailable_patterns : List String :=
  ["downstream_service_unavailable", "downstream service unavailable",
   "external service unavailable"]

/-- Feature not supported (422). -/
def fal_feature_not_supported_patterns : List String :=
  ["feature_not_supported", "feature not supported", "not supported", "unsupported feature"]

/-- Image load errors (422). -/
def fal_image_load_error_patterns : List String :=
  ["image_load_error", "image load error", "failed to load image", "corrupted image"]

/-- File download errors (422). -/
def fal_file_download_error_patterns : List String :=
  ["file_download_error", "file download error", "failed to download", "download failed"]

/-- Service unavailable (503, 502, 500). -/
def fal_service_unavailable_patterns : List String :=
  ["503", "502", "500", "service unavailable", "server error",
   "model unavailable", "temporarily unavailable", "maintenance"]

/-- Timeout errors (504, timeouts). -/
def fal_timeout_patterns : List String :=
  ["timeout", "504", "gateway timeout", "request timeout",
   "time out", "timed out", "deadline exceeded"]

/-- Input validation errors (400, invalid parameters). -/
def fal_invalid_request_patterns : List String :=
  ["400", "bad request", "invalid", "parameter", "argument",
   "validation error", "invalid input", "malformed", "parse error"]

/-- File upload errors (400). -/
def fal_file_upload_patterns : List String :=
  ["upload", "file", "image too large", "file size", "format not supported",
   "invalid file", "corrupted", "unsupported format"]

/-- Connection and network errors (503). -/
def fal_connection_patterns : List String :=
  ["connection", "network", "dns", "unreachable", "connection refused",
   "connection error", "network error", "ssl error"]

/-- No results or empty response (500). -/
def fal_no_results_patterns : List String :=
  ["no images", "empty result", "no output", "failed to generate",
   "generation failed", "no content generated"]

/-- Payment and billing errors (402). -/
def fal_payment_patterns : List String :=
  ["payment", "billing", "insufficient", "credits", "balance",
   "subscription", "plan", "payment required"]

/-- A fal.ai rule outcome: every branch of handle_fal_ai_error builds its
detail dict as service, operation, error_type slug and resolution hint. -/
def fal_response (status : Nat) (error_type message operation slug resolution : String) :
    ErrorResponse :=
  create_error_response status error_type message
    [("service", "AI Service"), ("operation", operation),
     ("error_type", slug), ("resolution", resolution)]

/-- The rate-limit outcome of handle_fal_ai_error, the first rule of the chain. -/
def fal_rate_limit_response (operation : String) : ErrorResponse :=
  fal_response 429 "Rate Limit Error"
    "API rate limit exceeded. You've made too many requests in a short time period."
    operation "rate_limit"
    "Wait a few minutes before making another request. Consider upgrading your service plan for higher limits."

/-- The parameter hint handle_fal_ai_error appends to the Invalid Request
message, from the lowercased message. -/
def fal_param_hint (error_msg : String) : String :=
  if containsSub error_msg "image_size" then
    " Check that image_size is valid (e.g., 'square_hd', 'portrait_4_3', 'landscape_4_3')."
  else if containsSub error_msg "prompt" then
    " Ensure your prompt is not empty and contains valid text."
  else if containsSub error_msg "num_inference_steps" then
    " Check that num_inference_steps is within the valid range (typically 1-50)."
  else if containsSub error_msg "guidance_scale" then
    " Ensure guidance_scale is a positive number (typically 1.0-20.0)."
  else ""

/-- The Invalid Request outcome of handle_fal_ai_error: its details also carry
the original error string. -/
def fal_invalid_request_response (operation error_msg original : String) : ErrorResponse :=
  create_error_response 400 "Invalid Request"
    ("Invalid parameters sent to the AI service." ++ fal_param_hint error_msg)
    [("service", "AI Service"), ("operation", operation),
     ("error_type", "invalid_parameters"),
     ("resolution", "Check the API documentation for valid parameter values and formats."),
     ("original_error", original)]

/-- The fallthrough outcome of handle_fal_ai_error when no pattern group
matches: generic 500 AI Service Error, original error truncated to 200
characters. -/
def fal_generic_response (operation original : String) : ErrorResponse :=
  create_error_response 500 "AI Service Error"
    ("An unexpected error occurred with AI service during " ++ operation ++
      ". This may be a temporary service issue.")
    [("service", "AI Service"), ("operation", operation),
     ("error_type", "generic"),
     ("resolution", "Try again in a few minutes. If the problem persists, contact support."),
     ("original_error", strTake original 200)]

/-- The ordered rule list of handle_fal_ai_error, in the order of the source's
`if` chain: pattern group paired with the outcome returned when the group is
the first to match. -/
def fal_error_rules (operation error_msg original : String) :
    List (List String × ErrorResponse) :=
  [(fal_rate_limit_patterns, fal_rate_limit_response operation),
   (fal_auth_patterns, fal_response 401 "Authentication Error"
     "API authentication failed. Please check that your API key is correctly configured in the environment."
     operation "authentication"
     "Verify that your API key environment variable is set with a valid API key"),
   (fal_face_detection_patterns, fal_response 422 "Face Detection Error"
     "Could not detect a face in the provided image. Face detection is required for this operation."
     operation "face_detection_error"
     "Ensure the image contains a clear, visible face and try again with a different image."),
   (fal_content_policy_patterns, fal_response 422 "Content Policy Violation"
     "Your request was blocked by the service's safety filters. The prompt may contain inappropriate content."
     operation "content_policy_violation"
     "Modify your prompt to remove potentially inappropriate, violent, or explicit content and try again."),
   (fal_image_too_small_patterns, fal_response 422 "Image Too Small"
     "The provided image dimensions are smaller than the required minimum size."
     operation "image_too_small"
     "Use an image with larger dimensions that meets the minimum size requirements."),
   (fal_image_too_large_patterns, fal_response 422 "Image Too Large"
     "The provided image dimensions exceed the maximum allowed limits."
     operation "image_too_large"
     "Resize your image to smaller dimensions that meet the maximum size requirements."),
   (fal_unsupported_image_format_patterns, fal_response 422 "Unsupported Image Format"
     "The image file format is not supported. Use a supported format like JPEG, PNG, or WebP."
     operation "unsupported_image_format"
     "Convert your image to a supported format (JPEG, PNG, WebP) and try again."),
   (fal_unsupported_audio_format_patterns, fal_response 422 "Unsupported Audio Format"
     "The audio file format is not supported. Use a supported format like MP3, WAV, or OGG."
     operation "unsupported_audio_format"
     "Convert your audio file to a supported format (MP3, WAV, OGG) and try again."),
   (fal_unsupported_video_format_patterns, fal_response 422 "Unsupported Video Format"
     "The video file format is not supported. Use a supported format like MP4, MOV, or WebM."
     operation "unsupported_video_format"
     "Convert your video file to a supported format (MP4, MOV, WebM) and try again."),
   (fal_model_not_found_patterns, fal_response 404 "Model Not Found"
     "The specified AI model or endpoint was not found. The model may have been updated or deprecated."
     operation "model_not_found"
     "Check the API documentation for the correct model endpoint name and update your code."),
   (fal_file_too_large_patterns, fal_response 422 "File Too Large"
     "The uploaded file exceeds the maximum allowed size limit."
     operation "file_too_large"
     "Reduce the file size or use a smaller file that meets the size requirements."),
   (fal_invalid_archive_patterns, fal_response 422 "Invalid Archive"
     "The provided archive file cannot be read or processed. It may be corrupted or in an unsupported format."
     operation "invalid_archive"
     "Ensure the archive is a valid ZIP or TAR.GZ file and not corrupted."),
   (fal_archive_too_few_patterns, fal_response 422 "Archive Has Too Few Files"
     "The provided archive contains fewer files than the minimum required count."
     operation "archive_file_count_below_minimum"
     "Add more files to your archive to meet the minimum file count requirement."),
   (fal_archive_too_many_patterns, fal_response 422 "Archive Has Too Many Files"
     "The provided archive contains more files than the maximum allowed count."
     operation "archive_file_count_exceeds_maximum"
     "Remove some files from your archive to meet the maximum file count limit."),
   (fal_audio_too_long_patterns, fal_response 422 "Audio Duration Too Long"
     "The provided audio file exceeds the maximum allowed duration."
     operation "audio_duration_too_long"
     "Trim your audio file to meet the maximum duration requirement."),
   (fal_audio_too_short_patterns, fal_response 422 "Audio Duration Too Short"
     "The provided audio file is shorter than the minimum required duration."
     operation "audio_duration_too_short"
     "Use a longer audio file that meets the minimum duration requirement."),
   (fal_video_too_long_patterns, fal_response 422 "Video Duration Too Long"
     "The provided video file exceeds the maximum allowed duration."
     operation "video_duration_too_long"
     "Trim your video file to meet the maximum duration requirement."),
   (fal_video_too_short_patterns, fal_response 422 "Video Duration Too Short"
     "The provided video file is shorter than the minimum required duration."
     operation "video_duration_too_short"
     "Use a longer video file that meets the minimum duration requirement."),
   (fal_greater_than_patterns, fal_response 422 "Value Too Small"
     "The provided numeric value is not greater than the required minimum."
     operation "greater_than"
     "Use a larger value that meets the minimum requirement."),
   (fal_greater_than_equal_patterns, fal_response 422 "Value Too Small"
     "The provided numeric value is less than the required minimum."
     operation "greater_than_equal"
     "Use a value greater than or equal to the minimum requirement."),
   (fal_less_than_patterns, fal_response 422 "Value Too Large"
     "The provided numeric value is not less than the required maximum."
     operation "less_than"
     "Use a smaller value that meets the maximum requirement."),
   (fal_less_than_equal_patterns, fal_response 422 "Value Too Large"
     "The provided numeric value is greater than the required maximum."
     operation "less_than_equal"
     "Use a value less than or equal to the maximum requirement."),
   (fal_multiple_of_patterns, fal_response 422 "Invalid Multiple"
     "The provided numeric value is not a multiple of the required factor."
     operation "multiple_of"
     "Use a value that is a multiple of the required factor."),
   (fal_sequence_too_short_patterns, fal_response 422 "Sequence Too Short"
     "The provided sequence has fewer items than the required minimum length."
     operation "sequence_too_short"
     "Add more items to meet the minimum length requirement."),
   (fal_sequence_too_long_patterns, fal_response 422 "Sequence Too Long"
     "The provided sequence has more items than the maximum allowed length."
     operation "sequence_too_long"
     "Remove some items to meet the maximum length limit."),
   (fal_one_of_patterns, fal_response 422 "Invalid Choice"
     "The provided value is not among the set of allowed values."
     operation "one_of"
     "Use one of the allowed values specified in the API documentation."),
   (fal_generation_timeout_patterns, fal_response 504 "Generation Timeout"
     "The generation request took longer than the allowed time limit to complete."
     operation "generation_timeout"
     "Try again with simpler parameters or retry later when the service is less busy."),
   (fal_downstream_error_patterns, fal_response 400 "Downstream Service Error"
     "There was a problem communicating with an external service required to fulfill the request."
     operation "downstream_service_error"
     "This is usually a temporary issue. Try again in a few minutes."),
   (fal_downstream_unavailable_patterns, fal_response 500 "Downstream Service Unavailable"
     "A required third-party service is currently unavailable, preventing the request from being fulfilled."
     operation "downstream_service_unavailable"
     "Wait a few minutes and try again. The external service should be back online shortly."),
   (fal_feature_not_supported_patterns, fal_response 422 "Feature Not Supported"
     "The combination of input parameters requests a feature that is not supported by this endpoint."
     operation "feature_not_supported"
     "Check the API documentation for supported features and adjust your parameters."),
   (fal_image_load_error_patterns, fal_response 422 "Image Load Error"
     "Failed to load or process the provided image. The image may be corrupted or in an unsupported format."
     operation "image_load_error"
     "Verify the image file is not corrupted and is in a supported format."),
   (fal_file_download_error_patterns, fal_response 422 "File Download Error"
     "Failed to download the file from the provided URL. Ensure the URL is publicly accessible."
     operation "file_download_error"
     "Check that the URL is correct, publicly accessible, and not behind authentication."),
   (fal_service_unavailable_patterns, fal_response 503 "Service Unavailable"
     "AI service is temporarily unavailable. This may be due to high demand or maintenance."
     operation "service_unavailable"
     "Wait a few minutes and try again. Check the service status page for any ongoing issues."),
   (fal_timeout_patterns, fal_response 504 "Request Timeout"
     "The request to the AI service timed out. Complex prompts or high-resolution images may take longer to process."
     operation "timeout"
     "Try simplifying your prompt, reducing image size, or trying again later when the service is less busy."),
   (fal_invalid_request_patterns, fal_invalid_request_response operation error_msg original),
   (fal_file_upload_patterns, fal_response 400 "File Upload Error"
     "There was an issue with the uploaded file. Check file format, size, and integrity."
     operation "file_upload_error"
     "Ensure files are in supported formats (JPEG, PNG, WebP), under size limits, and not corrupted."),
   (fal_connection_patterns, fal_response 503 "Network Error"
     "Unable to connect to AI services. Check your internet connection."
     operation "network_error"
     "Check your internet connection and firewall settings. The issue may be temporary."),
   (fal_no_results_patterns, fal_response 500 "Generation Failed"
     "AI service failed to generate any output. This may be due to prompt complexity or temporary service issues."
     operation "generation_failed"
     "Try simplifying your prompt, adjusting parameters, or trying again in a few minutes."),
   (fal_payment_patterns, fal_response 402 "Payment Required"
     "Your AI service account has insufficient credits or an inactive subscription."
     operation "payment_required"
     "Check your account balance and add credits or upgrade your subscription plan.")]

/-- First-match evaluation of an ordered rule list: the outcome of the first
group with a pattern contained in the message, the fallthrough outcome when
none matches. -/
def firstMatch (error_msg : String) (fallthrough : ErrorResponse) :
    List (List String × ErrorResponse) → ErrorResponse
  | [] => fallthrough
  | (patterns, outcome) :: rest =>
    if anyIn error_msg patterns then outcome else firstMatch error_msg fallthrough rest

/-- error_handlers.handle_fal_ai_error: lowercase the stringified exception,
then evaluate the ordered rule list, falling through to the generic 500
AI Service Error. -/
def handle_fal_ai_error (e operation : String) : ErrorResponse :=
  let error_msg := lowerStr e
  firstMatch error_msg (fal_generic_response operation e) (fal_error_rules operation error_msg e)

/-- The pattern groups of the fal.ai rule list, in declared order. -/
def fal_pattern_groups : List (List String) :=
  (fal_error_rules "" "" "").map Prod.fst

/-- Whether no pattern group of the fal.ai classifier matches the lowercased
message: the condition under which handle_fal_ai_error falls through. -/
def fal_no_pattern_matches (e : String) : Bool :=
  fal_pattern_groups.all (fun g => !(anyIn (lowerStr e) g))

/-- error_handlers.handle_openai_error. -/
def handle_openai_error (e operation : String) : ErrorResponse :=
  let error_msg := lowerStr e
  if containsSub error_msg "api key" || containsSub error_msg "unauthorized" then
    create_error_response 401 "Authentication Error"
      "OpenAI authentication failed. Please check the service configuration."
      [("service", "OpenAI"), ("operation", operation)]
  else if containsSub error_msg "rate limit" || containsSub error_msg "quota" then
    create_error_response 429 "Rate Limit Error"
      "OpenAI rate limit exceeded. Please wait a moment before trying again."
      [("service", "OpenAI"), ("operation", operation)]
  else if containsSub error_msg "content policy" || containsSub error_msg "safety" then
    create_error_response 400 "Content Policy Violation"
      "Your request was rejected due to content policy restrictions. Please modify your prompt and try again."
      [("service", "OpenAI"), ("operation", operation)]
  else
    create_error_response 500 "AI Service Error"
      ("An error occurred with OpenAI during " ++ operation ++ ". Please try again later.")
      [("service", "OpenAI"), ("operation", operation)]

/-- error_handlers.handle_google_ai_error. -/
def handle_google_ai_error (e operation : String) : ErrorResponse :=
  let error_msg := lowerStr e
  if containsSub error_msg "api key" || containsSub error_msg "unauthorized" then
    create_error_response 401 "Authentication Error"
      "Google AI authentication failed. Please check the service configuration."
      [("service", "Google AI"), ("operation", operation)]
  else if containsSub error_msg "quota" || containsSub error_msg "rate limit" then
    create_error_response 429 "Rate Limit Error"
      "Google AI rate limit exceeded. Please wait a moment before trying again."
      [("service", "Google AI"), ("operation", operation)]
  else if containsSub error_msg "safety" || containsSub error_msg "content policy" then
    create_error_response 400 "Content Policy Violation"
      "Your request was rejected due to content policy restrictions. Please modify your prompt and try again."
      [("service", "Google AI"), ("operation", operation)]
  else
    create_error_response 500 "AI Service Error"
      ("An error occurred with Google AI during " ++ operation ++ ". Please try again later.")
      [("service", "Google AI"), ("operation", operation)]

/-- error_handlers.handle_storage_error. The second branch keeps Python's
operator precedence: quota or (storage and full). -/
def handle_storage_error (e operation : String) : ErrorResponse :=
  let error_msg := lowerStr e
  if containsSub error_msg "permission" || containsSub error_msg "access denied" then
    create_error_response 403 "Storage Permission Error"
      "Unable to save the generated content due to storage permissions."
      [("service", "Storage"), ("operation", operation)]
  else if containsSub error_msg "quota" ||
      (containsSub error_msg "storage" && containsSub error_msg "full") then
    create_error_response 507 "Storage Full"
      "Storage quota exceeded. Please contact support."
      [("service", "Storage"), ("operation", operation)]
  else
    create_error_response 500 "Storage Error"
      "Unable to save the generated content. The content was generated successfully but couldn't be stored."
      [("service", "Storage"), ("operation", operation)]

/-- The routing test of error_handlers.handle_service_error that hands the
fault to the fal.ai classifier: an indicator in the lowercased service name,
or a fal marker in the lowercased message. -/
def routed_to_fal (service_name e : String) : Bool :=
  anyIn (lowerStr service_name) ["fal", "flux", "kontext"] ||
    anyIn (lowerStr e) ["fal.ai", "fal_client", "fal-ai"]

/-- error_handlers.handle_service_error: route to a provider-specific handler
by service name or message markers, then try network, rate-limit, auth,
forbidden and not-found vocabularies, and fall through to the generic 500
Service Error. -/
def handle_service_error (e service_name operation : String) : ErrorResponse :=
  let error_msg := lowerStr e
  if routed_to_fal service_name e then
    handle_fal_ai_error e operation
  else if containsSub error_msg "openai" || containsSub error_msg "gpt" ||
      containsSub error_msg "dalle" then
    handle_openai_error e operation
  else if containsSub error_msg "gemini" || containsSub error_msg "google" ||
      containsSub error_msg "imagen" then
    handle_google_ai_error e operation
  else if containsSub error_msg "storage" || containsSub error_msg "gcs" ||
      containsSub error_msg "bucket" then
    handle_storage_error e operation
  else if anyIn error_msg ["connection", "timeout", "network", "unreachable"] then
    create_error_response 503 "Network Error"
      ("Network connection failed during " ++ operation ++
        ". Please check your internet connection and try again.")
      [("service", service_name), ("operation", operation), ("error_type", "network")]
  else if containsSub error_msg "rate limit" || containsSub error_msg "quota" then
    create_error_response 429 "Rate Limit Error"
      ("Rate limit exceeded during " ++ operation ++
        ". Please wait a moment before trying again.")
      [("service", service_name), ("operation", operation)]
  else if containsSub error_msg "unauthorized" || containsSub error_msg "api key" ||
      containsSub error_msg "authentication" then
    create_error_response 401 "Authentication Error"
      ("Authentication failed with " ++ service_name ++
        ". Please check service configuration.")
      [("service", service_name), ("operation", operation)]
  else if containsSub error_msg "forbidden" || containsSub error_msg "permission" then
    create_error_response 403 "Authorization Error"
      ("Insufficient permissions for " ++ operation ++ " with " ++ service_name ++ ".")
      [("service", service_name), ("operation", operation)]
  else if containsSub error_msg "not found" || containsSub error_msg "404" then
    create_error_response 404 "Resource Not Found"
      ("The requested resource for " ++ operation ++ " was not found.")
      [("service", service_name), ("operation", operation)]
  else
    create_error_response 500 "Service Error"
      ("An error occurred during " ++ operation ++ ". Please try again later.")
      [("service", service_name), ("operation", operation)]

/-- The HTTP statuses of the documented error taxonomy. -/
def valid_statuses : List Nat :=
  [400, 401, 402, 403, 404, 422, 429, 500, 503, 504, 507]

/-! The image-generation schema tables
(image_generation_schema.py). -/

/-- The values of the ImageMode enum. -/
def image_mode_values : List String := ["generate", "edit"]

/-- The values of the ImageStyle enum. -/
def image_style_values : List String :=
  ["Photo", "Illustration", "Comic", "Anime", "Abstract", "Fantasy", "PopArt"]

/-- The values of the ImageShape enum. -/
def image_shape_values : List String := ["square", "portrait", "landscape"]

/-- TEXT_TO_IMAGE_MODELS, by enum value. -/
def TEXT_TO_IMAGE_MODELS : List String :=
  ["dalle", "flux_1_spro", "gemini", "flux_kontext_dev", "qwen",
   "gemini_nanobanana", "seedream"]

/-- IMAGE_EDIT_MODELS, by enum value. -/
def IMAGE_EDIT_MODELS : List String :=
  ["flux_kontext_edit", "gemini_nanobanana", "seedream"]

/-- MODEL_MAX_IMAGES: max reference images per model for edit mode. -/
def MODEL_MAX_IMAGES : List (String × Nat) :=
  [("gemini_nanobanana", 4), ("flux_kontext_edit", 1), ("seedream", 4)]

/-! The upload validators and the route's validation sequence. -/

/-- An uploaded file as the validators see it: its filename (Python-falsy when
empty) and its content_type; `none` stands for a missing or None
content_type. -/
structure UFile where
  filename : String
  content_type : Option String
deriving DecidableEq

/-- The allowed reference-image MIME types of the image-generate route. -/
def allowed_image_types : List String :=
  ["image/jpeg", "image/jpg", "image/png", "image/webp"]

/-- The error error_handlers.validate_file_types raises for file `i` of
`total`: 400 Invalid File Type, the field indexed only when more than one file
was sent. -/
def file_type_error (allowed_types : List String) (field_name : String)
    (total i : Nat) (received : String) : ErrorResponse :=
  ⟨400, "Invalid File Type",
    "Invalid file type. Supported formats: " ++ joinComma allowed_types,
    [("field", if total > 1 then field_name ++ "[" ++ toString i ++ "]" else field_name),
     ("received_type", received)]⟩

/-- The loop of error_handlers.validate_file_types from index `i`: the first
file whose content_type is missing or not allowed raises. -/
def validate_file_types_from (allowed_types : List String) (field_name : String)
    (total i : Nat) : List UFile → Option ErrorResponse
  | [] => none
  | f :: rest =>
    match f.content_type with
    | none => some (file_type_error allowed_types field_name total i "unknown")
    | some ct =>
      if ct ∈ allowed_types then
        validate_file_types_from allowed_types field_name total (i + 1) rest
      else
        some (file_type_error allowed_types field_name total i ct)

/-- error_handlers.validate_file_types: `some` error at the first offending
file, `none` when every file passes. -/
def validate_file_types (files : List UFile) (allowed_types : List String)
    (field_name : String) : Option ErrorResponse :=
  validate_file_types_from allowed_types field_name files.length 0 files

/-- A 400 Validation Error as the image-generate route raises it directly:
detail `{error: "Validation Error", message}`. -/
def route_validation_error (message : String) : ErrorResponse :=
  ⟨400, "Validation Error", message, []⟩

/-- Python truthiness of a filename: non-empty. -/
def hasFilename (f : UFile) : Bool := f.filename ≠ ""

/-- Python `not prompt or not prompt.strip()`. -/
def promptBlank (prompt : String) : Bool :=
  prompt.data.all Char.isWhitespace

/-- The edit-mode file checks of the image-generate route, run after the mode,
model, prompt, style and shape checks: presence, MIME types, the global
4-file cap, then the model-specific bound from MODEL_MAX_IMAGES
(flux_kontext_edit requires exactly 1, the others at most their bound). -/
def validate_edit_files (model : String) (image_files : Option (List UFile)) :
    Option ErrorResponse :=
  match image_files with
  | none => some (route_validation_error "Image files required for edit mode")
  | some files =>
    if files.isEmpty || files.all (fun f => !hasFilename f) then
      some (route_validation_error "Image files required for edit mode")
    else
      match validate_file_types files allowed_image_types "image_files" with
      | some e => some e
      | none =>
        let file_count := (files.filter hasFilename).length
        if file_count > 4 then
          some (route_validation_error
            ("Maximum 4 image files allowed. You uploaded " ++ toString file_count ++ " files."))
        else
          match MODEL_MAX_IMAGES.lookup model with
          | none => none
          | some max_allowed =>
            if model = "flux_kontext_edit" then
              if file_count ≠ 1 then
                some (route_validation_error
                  ("Model '" ++ model ++ "' requires exactly 1 image file. You provided " ++
                    toString file_count ++ " files."))
              else none
            else if file_count > max_allowed then
              some (route_validation_error
                ("Model '" ++ model ++ "' supports up to " ++ toString max_allowed ++
                  " image files. You provided " ++ toString file_count ++ " files."))
            else none

/-- The validation sequence of the image-generate route
(image_generation_route.generate_image), in source order: mode, model for the
mode, prompt, style, shape, and for edit mode the file checks. `none` means
the request reaches the dispatch call. -/
def generate_image_validate (mode model prompt style shape : String)
    (image_files : Option (List UFile)) : Option ErrorResponse :=
  if mode ∉ image_mode_values then
    some (route_validation_error "Mode must be 'generate' or 'edit'")
  else if mode = "generate" ∧ model ∉ TEXT_TO_IMAGE_MODELS then
    some (route_validation_error
      ("Invalid model for generate mode. Valid models: " ++ joinComma TEXT_TO_IMAGE_MODELS))
  else if mode ≠ "generate" ∧ model ∉ IMAGE_EDIT_MODELS then
    some (route_validation_error
      ("Invalid model for edit mode. Valid models: " ++ joinComma IMAGE_EDIT_MODELS))
  else if promptBlank prompt then
    some (route_validation_error "Prompt is required")
  else if style ∉ image_style_values then
    some (route_validation_error
      ("Invalid style. Valid styles: " ++ joinComma image_style_values))
  else if shape ∉ image_shape_values then
    some (route_validation_error
      ("Invalid shape. Valid shapes: " ++ joinComma image_shape_values))
  else if mode = "edit" then
    validate_edit_files model image_files
  else none

/-! The per-provider shape-parameter builders of
image_generation.ImageGenerationService. -/

/-- The DALL-E size_mapping of _generate_from_text. -/
def size_mapping : List (String × String) :=
  [("square", "1024x1024"), ("portrait", "1024x1792"), ("landscape", "1792x1024")]

/-- The size the DALL-E call sends: `size_mapping.get(shape, "1024x1024")`. -/
def dalle_size (shape : String) : String :=
  (size_mapping.lookup shape).getD "1024x1024"

/-- The fal.ai shape_mapping of _generate_from_text (Flux 1 SRPO, Flux Kontext
Dev, Qwen). -/
def fal_shape_mapping : List (String × String) :=
  [("square", "square_hd"), ("portrait", "portrait_4_3"), ("landscape", "landscape_4_3")]

/-- The image_size the fal.ai text-to-image call sends:
`shape_mapping.get(shape, "square_hd")`. -/
def fal_image_size (shape : String) : String :=
  (fal_shape_mapping.lookup shape).getD "square_hd"

/-- The Gemini Imagen aspect_ratio_mapping of _generate_from_text. -/
def gemini_aspect_mapping : List (String × String) :=
  [("square", "1:1"), ("portrait", "9:16"), ("landscape", "16:9")]

/-- The aspect_ratio the Gemini Imagen call sends:
`aspect_ratio_mapping.get(shape, "1:1")`. -/
def gemini_aspect (shape : String) : String :=
  (gemini_aspect_mapping.lookup shape).getD "1:1"

/-- The shape_mapping declared again inside _edit_image for Flux Kontext Edit
(the source repeats the fal.ai table there). -/
def kontext_edit_shape_mapping : List (String × String) :=
  [("square", "square_hd"), ("portrait", "portrait_4_3"), ("landscape", "landscape_4_3")]

/-- The image_size the Flux Kontext Edit call sends. -/
def kontext_edit_image_size (shape : String) : String :=
  (kontext_edit_shape_mapping.lookup shape).getD "square_hd"

/-- The SeeDream shape_mapping of _generate_seedream (identity table). -/
def seedream_shape_mapping : List (String × String) :=
  [("square", "square"), ("portrait", "portrait"), ("landscape", "landscape")]

/-- The aspect_ratio the SeeDream call sends:
`shape_mapping.get(shape, "square")`. -/
def seedream_aspect (shape : String) : String :=
  (seedream_shape_mapping.lookup shape).getD "square"

/-- The shape-carrying parameter a provider payload holds: its key in the
provider's argument dict and its encoded value; `noSize` for the NanoBanana
streaming path, which sends no explicit size parameter. -/
inductive SizeParam where
  | named (key value : String)
  | noSize
  | unsupported
deriving DecidableEq

/-- The shape parameter of the text-to-image payload each branch of
_generate_from_text builds, by model. -/
def text_to_image_size_param (model shape : String) : SizeParam :=
  if model = "dalle" then .named "size" (dalle_size shape)
  else if model = "flux_1_spro" ∨ model = "flux_kontext_dev" ∨ model = "qwen" then
    .named "image_size" (fal_image_size shape)
  else if model = "gemini" then .named "aspect_ratio" (gemini_aspect shape)
  else if model = "gemini_nanobanana" then .noSize
  else if model = "seedream" then .named "aspect_ratio" (seedream_aspect shape)
  else .unsupported

/-- The shape parameter of the edit payload each branch of _edit_image
builds, by model. -/
def edit_size_param (model shape : String) : SizeParam :=
  if model = "flux_kontext_edit" then .named "image_size" (kontext_edit_image_size shape)
  else if model = "gemini_nanobanana" then .noSize
  else if model = "seedream" then .named "aspect_ratio" (seedream_aspect shape)
  else .unsupported

/-! The mode dispatch of ImageGenerationService.generate_image and the
SeeDream endpoint choice. -/

/-- Where ImageGenerationService.generate_image sends a request: the
text-to-image path, the edit path, or a raised ValueError. -/
inductive DispatchResult where
  | text_to_image (model : String)
  | edit (model : String)
  | value_error (msg : String)
deriving DecidableEq

/-- ImageGenerationService.generate_image: generate mode goes to
_generate_from_text; edit mode raises ValueError when image_files is falsy
(None or empty) and goes to _edit_image otherwise; any other mode raises. -/
def service_generate_image (mode model : String) (image_files : Option (List UFile)) :
    DispatchResult :=
  if mode = "generate" then .text_to_image model
  else if mode = "edit" then
    match image_files with
    | none => .value_error "Image files required for edit mode"
    | some [] => .value_error "Image files required for edit mode"
    | some (_ :: _) => .edit model
  else .value_error ("Invalid mode: " ++ mode)

/-- The endpoint _generate_seedream submits to: the edit endpoint when
image_files is a non-empty list, the text-to-image endpoint otherwise. -/
def seedream_endpoint (image_files : Option (List UFile)) : String :=
  match image_files with
  | some (_ :: _) => "fal-ai/bytedance/seedream/v4/edit"
  | _ => "fal-ai/bytedance/seedream/v4/text-to-image"

/-- The count guard at the top of _edit_image: `MODEL_MAX_IMAGES.get(model, 0)`
and a ValueError when the file list is longer. -/
def edit_image_max_check (model : String) (image_files : List UFile) : Option String :=
  let max_files := (MODEL_MAX_IMAGES.lookup model).getD 0
  if image_files.length > max_files then
    some ("Model " ++ model ++ " supports maximum " ++ toString max_files ++
      " reference images")
  else none

/-! The media uploader (media_uploader.MediaUploader). -/

/-- The uploader state MediaUploader.__init__ fixes once: `bucket` holds the
GCS bucket name when the storage client initialized, and is `none` when the
module import or the client construction failed (the local fallback is then used for
every later call). -/
structure UploaderState where
  bucket : Option String
deriving DecidableEq

/-- What one upload_bytes call did: the GCS branch with its blob name and
public URL, or the local-filesystem branch with the file path written and the
locally-rooted public URL. Both branches return the URL string to the
caller. -/
inductive StoragePath where
  | gcs (blob_name public_url : String)
  | local_fs (file_path public_url : String)
deriving DecidableEq

/-- The URL upload_bytes returns. -/
def StoragePath.url : StoragePath → String
  | .gcs _ u => u
  | .local_fs _ u => u

/-- Whether the call took the local-filesystem fallback branch. -/
def StoragePath.isLocal : StoragePath → Bool
  | .gcs _ _ => false
  | .local_fs _ _ => true

/-- media_uploader.upload_bytes: when the bucket is set, upload the bytes to
`{media_type}/{user_id}/{filename}` and return the storage.googleapis.com URL;
otherwise write them under `{media_type}s/{user_id or "anonymous"}/{filename}`
and return `{BASE_URL}/{media_type}s/{user_id or "anonymous"}/{filename}`. -/
def upload_bytes (st : UploaderState) (base_url : String) (data : List Nat)
    (filename user_id content_type media_type : String) : StoragePath :=
  match st.bucket with
  | some bucket_name =>
    let destination_blob_name := media_type ++ "/" ++ user_id ++ "/" ++ filename
    .gcs destination_blob_name
      ("https://storage.googleapis.com/" ++ bucket_name ++ "/" ++ destination_blob_name)
  | none =>
    let uid := if user_id = "" then "anonymous" else user_id
    let user_folder := media_type ++ "s/" ++ uid
    .local_fs (user_folder ++ "/" ++ filename)
      (base_url ++ "/" ++ media_type ++ "s/" ++ uid ++ "/" ++ filename)

/-! The image resizer (media_uploader.resize_image_if_needed). -/

/-- An image byte string as resize_image_if_needed inspects it: the raw bytes,
the (width, height) PIL reports when `Image.open` succeeds (`none` when it
raises), and the bytes the resize-and-save step produces at given new
dimensions (`none` when that step raises; the saved format and quality are
folded into this field). -/
structure ImageBytes where
  raw : List Nat
  decoded : Option (Nat × Nat)
  resized_output : Nat → Nat → Option (List Nat)

/-- media_uploader.resize_image_if_needed: return the input bytes unchanged
when the image decodes within max_dimension in both axes, scale the longer
axis to max_dimension otherwise (integer truncation), and return the input
bytes unchanged whenever any step raises. The source's default max_dimension
is 4000. -/
def resize_image_if_needed (img : ImageBytes) (max_dimension : Nat) : List Nat :=
  match img.decoded with
  | none => img.raw
  | some (original_width, original_height) =>
    if original_width ≤ max_dimension && original_height ≤ max_dimension then
      img.raw
    else
      let new_dims :=
        if original_width > original_height then
          (max_dimension, original_height * max_dimension / original_width)
        else
          (original_width * max_dimension / original_height, max_dimension)
      match img.resized_output new_dims.1 new_dims.2 with
      | some out => out
      | none => img.raw

/-- Whether the try-block of resize_image_if_needed raises on this input:
Image.open fails, or a resize is needed and the resize-and-save step fails. -/
def resize_raises (img : ImageBytes) (max_dimension : Nat) : Bool :=
  match img.decoded with
  | none => true
  | some (original_width, original_height) =>
    if original_width ≤ max_dimension && original_height ≤ max_dimension then
      false
    else
      let new_dims :=
        if original_width > original_height then
          (max_dimension, original_height * max_dimension / original_width)
        else
          (original_width * max_dimension / original_height, max_dimension)
      (img.resized_output new_dims.1 new_dims.2).isNone

/-! The NanoBanana reference-image loop
(_generate_gemini_streaming, image_generation.py lines 201-222). -/

/-- The outcome of `await image_file.read()` for one reference file: the image
bytes, or a raised exception with its message. -/
inductive ReadOutcome where
  | ok (img : ImageBytes)
  | raises (msg : String)

/-- A reference upload as the NanoBanana loop sees it. -/
structure RefFile where
  filename : String
  content_type : Option String
  read_result : ReadOutcome

/-- The reference-image loop of _generate_gemini_streaming: at most 4 files,
files without a filename skipped, and a file whose read-resize-append step
raises is skipped with a warning (the exception does not propagate). Returns
the appended image parts and successfully_added. -/
def process_reference_images (image_files : List RefFile) : List (List Nat) × Nat :=
  let max_images := min image_files.length 4
  (image_files.take max_images).foldl
    (fun acc f =>
      if hasFilename ⟨f.filename, f.content_type⟩ then
        match f.read_result with
        | .ok img => (acc.1 ++ [resize_image_if_needed img 4000], acc.2 + 1)
        | .raises _ => acc
      else acc)
    ([], 0)

/-! The route boundary of the image-generate endpoint. -/

/-- What the route handler returns: a 200 response with the uploaded image
URL, a re-raised HTTPException from validation, or the classified error
handle_service_error builds from a fault of the dispatch-provider-upload
pipeline. -/
inductive RouteResult where
  | ok (response_status : Nat) (image_url : String)
  | http_error (e : ErrorResponse)
  | classified_error (e : ErrorResponse)
deriving DecidableEq

/-- image_generation_route.generate_image as a whole: run the validation
sequence; when it passes, the awaited service call either yields the image
URL (200 response) or raises a fault, which is passed to handle_service_error
once — no retry — and surfaced as the structured error. `service_result`
embeds the outcome of the provider-and-upload pipeline. -/
def generate_image_route (mode model prompt style shape : String)
    (image_files : Option (List UFile)) (service_result : Except String String) :
    RouteResult :=
  match generate_image_validate mode model prompt style shape image_files with
  | some e => .http_error e
  | none =>
    match service_result with
    | .ok url => .ok 200 url
    | .error fault => .classified_error (handle_service_error fault model "image generation")

/-! Concrete fixtures used by the theorems below. -/

/-- A valid JPEG reference upload. -/
def jpeg_file (name : String) : UFile := ⟨name, some "image/jpeg"⟩

/-- Five uploads of a MIME type the route does not allow. -/
def bad_type_files : List UFile := List.replicate 5 ⟨"f.txt", some "text/plain"⟩

/-- Whether a reference file's read step raised. -/
def read_raised (f : RefFile) : Bool :=
  match f.read_result with
  | .raises _ => true
  | .ok _ => false

/-- A reference upload whose `await image_file.read()` raises. -/
def failing_ref_file : RefFile := ⟨"photo.jpg", some "image/jpeg", .raises "disk read error"⟩

/-- An image byte string PIL cannot open. -/
def undecodable_image : ImageBytes := ⟨[7, 8, 9], none, fun _ _ => none⟩

/-- A decodable 100 by 200 image, within the 4000-pixel bound. -/
def small_test_image : ImageBytes := ⟨[7, 8, 9], some (100, 200), fun _ _ => none⟩

/-! Helper lemmas about first-match rule evaluation. -/

/-- First-match evaluation falls through when no rule's group matches. -/
theorem firstMatch_eq_fallthrough (error_msg : String) (fallthrough : ErrorResponse)
    (rules : List (List String × ErrorResponse))
    (h : ∀ pr ∈ rules, anyIn error_msg pr.1 = false) :
    firstMatch error_msg fallthrough rules = fallthrough := by
  induction rules with
  | nil => rfl
  | cons pr rest ih =>
    have h0 := h pr (List.mem_cons_self _ _)
    simp only [firstMatch, h0, Bool.false_eq_true, if_false]
    exact ih fun q hq => h q (List.mem_cons_of_mem _ hq)

/-- The status of a first-match result is the status of one of the rules or of
the fallthrough. -/
theorem firstMatch_status_mem (error_msg : String) (fallthrough : ErrorResponse)
    (rules : List (List String × ErrorResponse)) (S : List Nat)
    (hf : fallthrough.status ∈ S) (hr : ∀ pr ∈ rules, pr.2.status ∈ S) :
    (firstMatch error_msg fallthrough rules).status ∈ S := by
  induction rules with
  | nil => exact hf
  | cons pr rest ih =>
    simp only [firstMatch]
    split
    · exact hr pr (List.mem_cons_self _ _)
    · exact ih fun q hq => hr q (List.mem_cons_of_mem _ hq)

/-- The pattern groups of the fal.ai rule list do not depend on the operation
or message arguments. -/
theorem fal_error_rules_fst (operation error_msg original : String) :
    (fal_error_rules operation error_msg original).map Prod.fst = fal_pattern_groups := rfl

/-- Every outcome of the fal.ai rule list carries a status of the documented
taxonomy. -/
theorem fal_rules_status_mem (operation error_msg original : String) :
    ∀ pr ∈ fal_error_rules operation error_msg original, pr.2.status ∈ valid_statuses := by
  intro pr h
  simp only [fal_error_rules, List.mem_cons, List.not_mem_nil, or_false] at h
  rcases h with rfl | rfl | rfl | rfl | rfl | rfl | rfl | rfl | rfl | rfl | rfl | rfl | rfl |
    rfl | rfl | rfl | rfl | rfl | rfl | rfl | rfl | rfl | rfl | rfl | rfl | rfl | rfl | rfl |
    rfl | rfl | rfl | rfl | rfl | rfl | rfl | rfl | rfl | rfl | rfl
  all_goals simp [fal_response, fal_rate_limit_response, fal_invalid_request_response,
    create_error_response, valid_statuses]

/-- handle_fal_ai_error always returns a status of the documented taxonomy. -/
theorem handle_fal_ai_error_status_mem (e operation : String) :
    (handle_fal_ai_error e operation).status ∈ valid_statuses := by
  unfold handle_fal_ai_error
  exact firstMatch_status_mem _ _ _ _
    (by simp [fal_generic_response, create_error_response, valid_statuses])
    (fal_rules_status_mem _ _ _)

/-- handle_openai_error always returns a status of the documented taxonomy. -/
theorem handle_openai_error_status_mem (e operation : String) :
    (handle_openai_error e operation).status ∈ valid_statuses := by
  unfold handle_openai_error
  dsimp only
  split_ifs <;> simp [create_error_response, valid_statuses]

/-- handle_google_ai_error always returns a status of the documented taxonomy. -/
theorem handle_google_ai_error_status_mem (e operation : String) :
    (handle_google_ai_error e operation).status ∈ valid_statuses := by
  unfold handle_google_ai_error
  dsimp only
  split_ifs <;> simp [create_error_response, valid_statuses]

/-- handle_storage_error always returns a status of the documented taxonomy. -/
theorem handle_storage_error_status_mem (e operation : String) :
    (handle_storage_error e operation).status ∈ valid_statuses := by
  unfold handle_storage_error
  dsimp only
  split_ifs <;> simp [create_error_response, valid_statuses]

/-- handle_service_error always returns a status of the documented taxonomy. -/
theorem handle_service_error_status_mem (e service_name operation : String) :
    (handle_service_error e service_name operation).status ∈ valid_statuses := by
  unfold handle_service_error
  dsimp only
  split_ifs
  · exact handle_fal_ai_error_status_mem e operation
  · exact handle_openai_error_status_mem e operation
  · exact handle_google_ai_error_status_mem e operation
  · exact handle_storage_error_status_mem e operation
  all_goals simp [create_error_response, valid_statuses]

/-- When no fal.ai pattern group matches, handle_fal_ai_error returns the
generic 500 AI Service Error. -/
theorem handle_fal_ai_error_no_match (e operation : String)
    (h : fal_no_pattern_matches e = true) :
    handle_fal_ai_error e operation = fal_generic_response operation e := by
  unfold handle_fal_ai_error
  apply firstMatch_eq_fallthrough
  intro pr hpr
  have h1 : pr.1 ∈ fal_pattern_groups := by
    rw [← fal_error_rules_fst operation (lowerStr e) e]
    exact List.mem_map_of_mem Prod.fst hpr
  have h2 := List.all_eq_true.mp h _ h1
  simpa using h2

/-! The claims. -/

/-- C1: any fault whose lowercased message contains both a rate-limit pattern
and an invalid-request pattern classifies as the rate-limit result (status
429, Rate Limit Error), because the rate-limit group is the first rule of
handle_fal_ai_error's ordered chain and the invalid-request group comes later;
in particular a message containing "429 too many requests" classifies as the
rate-limit result. -/
theorem C1_rate_limit_precedes_invalid_request (e operation : String)
    (hrate : anyIn (lowerStr e) fal_rate_limit_patterns = true)
    (hinv : anyIn (lowerStr e) fal_invalid_request_patterns = true) :
    handle_fal_ai_error e operation = fal_rate_limit_response operation
    ∧ (fal_rate_limit_response operation).status = 429
    ∧ (fal_rate_limit_response operation).error = "Rate Limit Error"
    ∧ handle_fal_ai_error "429 too many requests" operation
        = fal_rate_limit_response operation := by
  refine ⟨?_, rfl, rfl, ?_⟩
  · simp only [handle_fal_ai_error, fal_error_rules, firstMatch, hrate, if_true]
  · have h : anyIn (lowerStr "429 too many requests") fal_rate_limit_patterns = true := by
      decide
    simp only [handle_fal_ai_error, fal_error_rules, firstMatch, h, if_true]

/-- C1 witness: "Error 429: invalid parameter" contains a pattern of both
groups and classifies as the rate-limit result. -/
theorem C1_rate_limit_precedes_invalid_request_witness :
    anyIn (lowerStr "Error 429: invalid parameter") fal_rate_limit_patterns = true
    ∧ anyIn (lowerStr "Error 429: invalid parameter") fal_invalid_request_patterns = true
    ∧ handle_fal_ai_error "Error 429: invalid parameter" "image generation"
        = fal_rate_limit_response "image generation" :=
  ⟨by decide, by decide,
    (C1_rate_limit_precedes_invalid_request "Error 429: invalid parameter" "image generation"
      (by decide) (by decide)).1⟩

/-- C2: evaluation of the route's edit-mode bounds. flux_kontext_edit indeed
rejects 0 and 2 files and accepts 1; gemini_nanobanana accepts 4 and rejects 5;
but gemini_nanobanana and seedream with zero supplied files are rejected with
400 "Image files required for edit mode" although 0 does not exceed their
bound of 4 — the claim's "rejected exactly when the file count exceeds 4" and
the route docstring's "0-4 reference images" are contradicted at file count
0. -/
theorem C2_edit_bounds_evaluated :
    generate_image_validate "edit" "flux_kontext_edit" "a cat" "Photo" "square"
        (some [jpeg_file "a.jpg"]) = none
    ∧ generate_image_validate "edit" "flux_kontext_edit" "a cat" "Photo" "square" none
        = some (route_validation_error "Image files required for edit mode")
    ∧ generate_image_validate "edit" "flux_kontext_edit" "a cat" "Photo" "square"
        (some [jpeg_file "a.jpg", jpeg_file "b.jpg"])
        = some (route_validation_error
            "Model 'flux_kontext_edit' requires exactly 1 image file. You provided 2 files.")
    ∧ generate_image_validate "edit" "gemini_nanobanana" "a cat" "Photo" "square"
        (some (List.replicate 4 (jpeg_file "a.jpg"))) = none
    ∧ generate_image_validate "edit" "gemini_nanobanana" "a cat" "Photo" "square"
        (some (List.replicate 5 (jpeg_file "a.jpg")))
        = some (route_validation_error "Maximum 4 image files allowed. You uploaded 5 files.")
    ∧ generate_image_validate "edit" "gemini_nanobanana" "a cat" "Photo" "square" none
        = some (route_validation_error "Image files required for edit mode")
    ∧ generate_image_validate "edit" "seedream" "a cat" "Photo" "square" (some [])
        = some (route_validation_error "Image files required for edit mode") := by
  decide

/-- C3: for each provider parameter builder and each shape, the emitted
encoding is exactly the documented one: DALL-E pixel sizes, fal.ai named
sizes for flux_1_spro, flux_kontext_dev, qwen and flux_kontext_edit, and
Gemini Imagen aspect ratios. -/
theorem C3_shape_encodings_per_provider :
    text_to_image_size_param "dalle" "portrait" = .named "size" "1024x1792"
    ∧ text_to_image_size_param "dalle" "square" = .named "size" "1024x1024"
    ∧ text_to_image_size_param "dalle" "landscape" = .named "size" "1792x1024"
    ∧ text_to_image_size_param "flux_1_spro" "portrait" = .named "image_size" "portrait_4_3"
    ∧ text_to_image_size_param "flux_1_spro" "square" = .named "image_size" "square_hd"
    ∧ text_to_image_size_param "flux_1_spro" "landscape" = .named "image_size" "landscape_4_3"
    ∧ text_to_image_size_param "flux_kontext_dev" "portrait" = .named "image_size" "portrait_4_3"
    ∧ text_to_image_size_param "flux_kontext_dev" "square" = .named "image_size" "square_hd"
    ∧ text_to_image_size_param "flux_kontext_dev" "landscape" = .named "image_size" "landscape_4_3"
    ∧ text_to_image_size_param "qwen" "portrait" = .named "image_size" "portrait_4_3"
    ∧ text_to_image_size_param "qwen" "square" = .named "image_size" "square_hd"
    ∧ text_to_image_size_param "qwen" "landscape" = .named "image_size" "landscape_4_3"
    ∧ edit_size_param "flux_kontext_edit" "portrait" = .named "image_size" "portrait_4_3"
    ∧ edit_size_param "flux_kontext_edit" "square" = .named "image_size" "square_hd"
    ∧ edit_size_param "flux_kontext_edit" "landscape" = .named "image_size" "landscape_4_3"
    ∧ text_to_image_size_param "gemini" "portrait" = .named "aspect_ratio" "9:16"
    ∧ text_to_image_size_param "gemini" "square" = .named "aspect_ratio" "1:1"
    ∧ text_to_image_size_param "gemini" "landscape" = .named "aspect_ratio" "16:9" := by
  decide

/-- C4: with the bucket unavailable at initialization, upload_bytes takes the
local-filesystem branch, returns the URL {base_url}/{media_type}s/{user_id}/
{filename} under the same string-URL return contract, and which branch runs
depends only on the initialization-time state, not on the per-call
arguments. -/
theorem C4_local_fallback_url (st : UploaderState) (base_url : String) (data : List Nat)
    (filename user_id content_type media_type : String)
    (hb : st.bucket = none) (hu : user_id ≠ "") :
    (upload_bytes st base_url data filename user_id content_type media_type).isLocal = true
    ∧ (upload_bytes st base_url data filename user_id content_type media_type).url
        = base_url ++ "/" ++ media_type ++ "s/" ++ user_id ++ "/" ++ filename
    ∧ ∀ (d2 : List Nat) (f2 u2 c2 m2 : String),
        (upload_bytes st base_url d2 f2 u2 c2 m2).isLocal
          = (upload_bytes st base_url data filename user_id content_type media_type).isLocal := by
  obtain ⟨b⟩ := st
  simp only at hb
  subst hb
  refine ⟨rfl, ?_, fun _ _ _ _ _ => rfl⟩
  simp [upload_bytes, StoragePath.url, hu]

/-- C4 witness: a concrete local-fallback upload. -/
theorem C4_local_fallback_url_witness :
    (upload_bytes ⟨none⟩ "http://localhost:8000" [1, 2] "img.png" "user42" "image/png"
        "image").isLocal = true
    ∧ (upload_bytes ⟨none⟩ "http://localhost:8000" [1, 2] "img.png" "user42" "image/png"
        "image").url
      = "http://localhost:8000" ++ "/" ++ "image" ++ "s/" ++ "user42" ++ "/" ++ "img.png" :=
  ⟨(C4_local_fallback_url ⟨none⟩ "http://localhost:8000" [1, 2] "img.png" "user42" "image/png"
      "image" rfl (by decide)).1,
   (C4_local_fallback_url ⟨none⟩ "http://localhost:8000" [1, 2] "img.png" "user42" "image/png"
      "image" rfl (by decide)).2.1⟩

/-- C5 counterexample: a fault not routed to any provider handler and matching
no vocabulary falls through to 500 with error type "Service Error", not
"AI Service Error" as the claim states. -/
theorem C5_counterexample_generic_fallthrough :
    (handle_service_error "zzz" "svc" "image generation").status = 500
    ∧ (handle_service_error "zzz" "svc" "image generation").error = "Service Error"
    ∧ (handle_service_error "zzz" "svc" "image generation").error ≠ "AI Service Error" := by
  decide

/-- C5 amended: handle_service_error is total — every input yields a
structured error whose status is in the documented taxonomy — and when the
fault routes to the fal.ai classifier and no pattern group matches, it falls
through to the generic 500 AI Service Error; the unrouted no-match fallthrough
is instead 500 Service Error (see the counterexample). -/
theorem C5_classifier_total_and_routed_fallthrough (e service_name operation : String) :
    (handle_service_error e service_name operation).status ∈ valid_statuses
    ∧ (routed_to_fal service_name e = true → fal_no_pattern_matches e = true →
        handle_service_error e service_name operation = fal_generic_response operation e) := by
  refine ⟨handle_service_error_status_mem e service_name operation, fun hr hn => ?_⟩
  unfold handle_service_error
  dsimp only
  rw [if_pos hr]
  exact handle_fal_ai_error_no_match e operation hn

/-- C5 witness: service name "fal" routes to the fal.ai classifier and the
no-match fault "zzz" falls through to the generic 500 AI Service Error. -/
theorem C5_classifier_total_and_routed_fallthrough_witness :
    (handle_service_error "zzz" "fal" "image generation").status ∈ valid_statuses
    ∧ handle_service_error "zzz" "fal" "image generation"
        = fal_generic_response "image generation" "zzz" :=
  ⟨(C5_classifier_total_and_routed_fallthrough "zzz" "fal" "image generation").1,
   (C5_classifier_total_and_routed_fallthrough "zzz" "fal" "image generation").2
     (by decide) (by decide)⟩

/-- C6: an edit-mode request with zero supplied reference images is rejected,
not re-dispatched: the service raises "Image files required for edit mode"
for an empty or missing file list, and the route rejects it with 400 — the
text-to-image SeeDream endpoint is selected only when _generate_seedream is
reached with no files, which the guards make unreachable for edit requests. -/
theorem C6_zero_image_edit_rejected_not_redispatched :
    service_generate_image "edit" "seedream" (some [])
        = .value_error "Image files required for edit mode"
    ∧ service_generate_image "edit" "gemini_nanobanana" none
        = .value_error "Image files required for edit mode"
    ∧ seedream_endpoint (some []) = "fal-ai/bytedance/seedream/v4/text-to-image"
    ∧ seedream_endpoint none = "fal-ai/bytedance/seedream/v4/text-to-image"
    ∧ generate_image_validate "edit" "seedream" "a cat" "Photo" "square" (some [])
        = some (route_validation_error "Image files required for edit mode") := by
  decide

/-- C7 counterexample: five files of a disallowed MIME type violate both the
type constraint and the 4-file count constraint, yet the resulting error is
only the Invalid File Type error for the first file — its message does not
mention the count limit. -/
theorem C7_counterexample_first_error_only :
    generate_image_validate "edit" "gemini_nanobanana" "a cat" "Photo" "square"
        (some bad_type_files)
      = some (file_type_error allowed_image_types "image_files" 5 0 "text/plain")
    ∧ containsSub (file_type_error allowed_image_types "image_files" 5 0 "text/plain").message
        "Maximum" = false
    ∧ (bad_type_files.filter hasFilename).length > 4 := by
  decide

/-- C7 amended: the route's media validation reports only the first violated
constraint in check order: whenever the first file's MIME type is missing or
not allowed, the result is the Invalid File Type error for index 0, whatever
other constraints (such as the file count) the remaining list violates. -/
theorem C7_first_violation_reported (f : UFile) (fs : List UFile)
    (hname : hasFilename f = true)
    (htype : ∀ ct, f.content_type = some ct → ct ∉ allowed_image_types) :
    generate_image_validate "edit" "gemini_nanobanana" "a cat" "Photo" "square" (some (f :: fs))
      = some (file_type_error allowed_image_types "image_files" (f :: fs).length 0
          (f.content_type.getD "unknown")) := by
  have hall : ((f :: fs).all fun g => !hasFilename g) = false := by
    simp [List.all_cons, hname]
  have hvt : validate_file_types (f :: fs) allowed_image_types "image_files"
      = some (file_type_error allowed_image_types "image_files" (f :: fs).length 0
          (f.content_type.getD "unknown")) := by
    unfold validate_file_types validate_file_types_from
    cases hct : f.content_type with
    | none => simp
    | some ct =>
      have hmem := htype ct hct
      simp [hmem]
  show validate_edit_files "gemini_nanobanana" (some (f :: fs)) = _
  unfold validate_edit_files
  simp [hall, hvt]

/-- C7 witness: the first of five text/plain files is the one reported. -/
theorem C7_first_violation_reported_witness :
    generate_image_validate "edit" "gemini_nanobanana" "a cat" "Photo" "square"
        (some ((⟨"f.txt", some "text/plain"⟩ : UFile) :: List.replicate 4
          (⟨"f.txt", some "text/plain"⟩ : UFile)))
      = some (file_type_error allowed_image_types "image_files" 5 0 "text/plain") :=
  C7_first_violation_reported ⟨"f.txt", some "text/plain"⟩
    (List.replicate 4 ⟨"f.txt", some "text/plain"⟩) (by decide)
    (fun ct h => by injection h with h2; subst h2; decide)

/-- C8 counterexample: the request (mode edit, model flux_kontext_edit, empty
file list) is rejected with 400 Validation Error, but the message is
"Image files required for edit mode" — it does not state that exactly 1 file
is required (it contains neither "exactly 1" nor even "1"). -/
theorem C8_counterexample_empty_files_message :
    generate_image_validate "edit" "flux_kontext_edit" "a cat" "Photo" "square" (some [])
      = some (route_validation_error "Image files required for edit mode")
    ∧ containsSub "Image files required for edit mode" "exactly 1" = false
    ∧ containsSub "Image files required for edit mode" "1" = false := by
  decide

/-- C8 amended: the empty-file-list edit request for flux_kontext_edit fails
with 400 Validation Error whose message is the generic "Image files required
for edit mode"; the message stating that exactly 1 file is required is
produced when a nonzero count other than 1 is supplied, e.g. two files. -/
theorem C8_flux_kontext_edit_messages :
    generate_image_validate "edit" "flux_kontext_edit" "a cat" "Photo" "square" (some [])
      = some (route_validation_error "Image files required for edit mode")
    ∧ (route_validation_error "Image files required for edit mode").status = 400
    ∧ (route_validation_error "Image files required for edit mode").error = "Validation Error"
    ∧ generate_image_validate "edit" "flux_kontext_edit" "a cat" "Photo" "square"
        (some [jpeg_file "a.jpg", jpeg_file "b.jpg"])
      = some (route_validation_error
          "Model 'flux_kontext_edit' requires exactly 1 image file. You provided 2 files.")
    ∧ containsSub
        "Model 'flux_kontext_edit' requires exactly 1 image file. You provided 2 files."
        "exactly 1" = true := by
  decide

/-- C9 counterexample: a reference file whose read step raises is not a resize
failure, yet the NanoBanana loop swallows the fault: the loop returns normally
with the file skipped and nothing propagated — so resize failures are not the
only silently swallowed faults. -/
theorem C9_counterexample_swallowed_read_fault :
    read_raised failing_ref_file = true
    ∧ process_reference_images [failing_ref_file] = ([], 0) := by
  constructor
  · rfl
  · rfl

/-- C9 amended: resize faults are swallowed — whenever the try-block of
resize_image_if_needed raises, the original bytes are returned — and a fault
of the provider-and-upload pipeline is propagated to the route boundary,
classified by handle_service_error exactly once and surfaced as the structured
error (nothing retried); but the NanoBanana reference-image loop also swallows
per-file read faults (see the counterexample). -/
theorem C9_resize_swallowed_faults_propagated (img : ImageBytes) (max_dimension : Nat)
    (mode model prompt style shape : String) (image_files : Option (List UFile))
    (fault : String)
    (hres : resize_raises img max_dimension = true)
    (hval : generate_image_validate mode model prompt style shape image_files = none) :
    resize_image_if_needed img max_dimension = img.raw
    ∧ generate_image_route mode model prompt style shape image_files (.error fault)
        = .classified_error (handle_service_error fault model "image generation") := by
  constructor
  · unfold resize_raises at hres
    unfold resize_image_if_needed
    cases hd : img.decoded with
    | none => rfl
    | some wh =>
      obtain ⟨w, h⟩ := wh
      rw [hd] at hres
      by_cases hsmall : (w ≤ max_dimension && h ≤ max_dimension) = true
      · simp [hsmall]
      · simp only [Bool.not_eq_true] at hsmall
        simp only [hsmall, Bool.false_eq_true, if_false] at hres ⊢
        rw [Option.isNone_iff_eq_none] at hres
        simp [hres]
  · unfold generate_image_route
    rw [hval]

/-- C9 witness: an undecodable image is returned unchanged, and a concrete
pipeline fault surfaces as the classified structured error. -/
theorem C9_resize_swallowed_faults_propagated_witness :
    resize_image_if_needed undecodable_image 4000 = undecodable_image.raw
    ∧ generate_image_route "generate" "dalle" "a cat" "Photo" "square" none (.error "boom")
        = .classified_error (handle_service_error "boom" "dalle" "image generation") :=
  C9_resize_swallowed_faults_propagated undecodable_image 4000 "generate" "dalle" "a cat"
    "Photo" "square" none "boom" rfl (by decide)

/-- C10: resize_image_if_needed is the identity on images that decode within
the bound (both axes at most max_dimension, default 4000): it returns the
input byte string exactly, with no re-encoding, and applying it again to any
image whose bytes are that output and which decodes the same way gives the
same result — applying twice equals applying once. -/
theorem C10_resize_identity_on_small (img : ImageBytes) (max_dimension w h : Nat)
    (hd : img.decoded = some (w, h)) (hw : w ≤ max_dimension) (hh : h ≤ max_dimension) :
    resize_image_if_needed img max_dimension = img.raw
    ∧ ∀ img2 : ImageBytes, img2.raw = resize_image_if_needed img max_dimension →
        img2.decoded = img.decoded →
        resize_image_if_needed img2 max_dimension = resize_image_if_needed img max_dimension := by
  have h1 : resize_image_if_needed img max_dimension = img.raw := by
    unfold resize_image_if_needed
    rw [hd]
    simp [hw, hh]
  refine ⟨h1, fun img2 hraw hdec => ?_⟩
  have h2 : resize_image_if_needed img2 max_dimension = img2.raw := by
    unfold resize_image_if_needed
    rw [hdec, hd]
    simp [hw, hh]
  rw [h2, hraw]

/-- C10 witness: a 100 by 200 image within the 4000 bound is returned
unchanged. -/
theorem C10_resize_identity_on_small_witness :
    resize_image_if_needed small_test_image 4000 = small_test_image.raw :=
  (C10_resize_identity_on_small small_test_image 4000 100 200 rfl (by decide) (by decide)).1
